import Mathlib

/-!
Verification of the dissolved-oxygen saturation calculator
(`calculate_do_saturation.py`).

The computational core is a chain of closed-form real formulas:
water vapor pressure (Antoine-type correlation), a pressure-correction
factor, the Weiss/Benson-Krause saturation concentration, and the final
percent-saturation ratio, plus a small self-test harness.

The embedding is over `ℝ`.  Scalar pure-Python float division raises
`ZeroDivisionError` when the denominator is zero; the `*_checked`
variants mirror that with `Except String`.  NumPy scalar operations
never raise: `np.log` of a nonpositive scalar yields NaN / -inf with a
runtime warning, and division by an `np.float64` zero yields inf / NaN
with a warning, so the logarithm and the final `do / do_max` division
(whose `do_max` is an `np.float64`) are embedded totally; the
`.ok` / `.error` structure of the checked variants is faithful to which
inputs raise.
`np.round(x, 1)` is embedded by `round1` (round to one decimal); the
reference values proved below are far from midpoints, so the
half-even / half-up difference is irrelevant.
-/

namespace DOSat

noncomputable section

/-- Constant `ABSOLUTE_ZERO = -273.15` from the source. -/
def ABSOLUTE_ZERO : ℝ := -273.15

/-- Celsius to Kelvin: `x - ABSOLUTE_ZERO`. -/
def deg2kelvin (x : ℝ) : ℝ := x - ABSOLUTE_ZERO

/-- Kelvin to Celsius: `x + ABSOLUTE_ZERO`. -/
def kelvin2deg (x : ℝ) : ℝ := x + ABSOLUTE_ZERO

/-- Vapor pressure of water: `10 ** (8.10765 - 1750.286/(235+t))`. -/
def vapor_pressure_of_water (t : ℝ) : ℝ :=
  (10 : ℝ) ^ (8.10765 - 1750.286 / (235 + t))

/-- Pressure correction factor:
`(p - vapor_pressure_of_water t) / (760 - vapor_pressure_of_water t)`. -/
def pressure_correction (p t : ℝ) : ℝ :=
  (p - vapor_pressure_of_water t) / (760 - vapor_pressure_of_water t)

/-- Dissolved-oxygen concentration at saturation (Weiss formula), mg/l. -/
def do_at_saturation (t p : ℝ) : ℝ :=
  let t_Kelvin := deg2kelvin t
  (1.42905 * Real.exp (
      - 173.4292
      + 249.6339 * (100 / t_Kelvin)
      + 143.3483 * Real.log (t_Kelvin / 100)
      - 21.8493 * (t_Kelvin / 100)))
    * pressure_correction p t

/-- Dissolved-oxygen saturation in percent. -/
def do_saturation (do_conc t p : ℝ) : ℝ :=
  let do_max := do_at_saturation t p
  (do_conc / do_max) * 100

/-- Scalar Python float division: raises `ZeroDivisionError` iff the
denominator is zero. -/
def pydiv (x y : ℝ) : Except String ℝ :=
  if y = 0 then Except.error "ZeroDivisionError" else Except.ok (x / y)

/-- `vapor_pressure_of_water` with Python raising semantics. -/
def vapor_pressure_of_water_checked (t : ℝ) : Except String ℝ := do
  let q ← pydiv 1750.286 (235 + t)
  return (10 : ℝ) ^ (8.10765 - q)

/-- `pressure_correction` with Python raising semantics (the source calls
`vapor_pressure_of_water` twice). -/
def pressure_correction_checked (p t : ℝ) : Except String ℝ := do
  let v1 ← vapor_pressure_of_water_checked t
  let v2 ← vapor_pressure_of_water_checked t
  pydiv (p - v1) (760 - v2)

/-- `do_at_saturation` with Python raising semantics.  `np.log` of a
nonpositive scalar yields NaN with a warning and does not raise, so only
the two divisions can fail. -/
def do_at_saturation_checked (t p : ℝ) : Except String ℝ := do
  let t_Kelvin := deg2kelvin t
  let q ← pydiv 100 t_Kelvin
  let do_sat := 1.42905 * Real.exp (
      - 173.4292
      + 249.6339 * q
      + 143.3483 * Real.log (t_Kelvin / 100)
      - 21.8493 * (t_Kelvin / 100))
  let f ← pressure_correction_checked p t
  return do_sat * f

/-- `do_saturation` with Python raising semantics.  `do_max` is an
`np.float64` (it comes out of `1.42905 * np.exp (...)`), so the final
division `do / do_max` is NumPy scalar division: at `do_max = 0` it
issues a RuntimeWarning and returns inf/NaN, it never raises.  Only the
upstream pure-Python divisions inside `do_at_saturation` can raise. -/
def do_saturation_checked (do_conc t p : ℝ) : Except String ℝ := do
  let do_max ← do_at_saturation_checked t p
  return (do_conc / do_max) * 100

/-- Model of `np.round(x, 1)`. -/
def round1 (x : ℝ) : ℝ := (round (10 * x) : ℤ) / 10

/-- The self-test harness `unit_test`: rounds the function's outputs to
one decimal and compares with the expected list; on mismatch it raises
`ValueError('function', func.__name__, 'failed test')`.  The function's
`__name__` is passed explicitly as `fname` (Lean has no reflection). -/
def unit_test (func : ℝ → ℝ) (fname : String)
    (test_input : List ℝ) (test_outputs : List ℝ) :
    Except (String × String × String) Unit :=
  let test_returns := test_input.map (fun val => round1 (func val))
  if test_outputs = test_returns then Except.ok ()
  else Except.error ("function", fname, "failed test")

end

/-! ## Basic helper lemmas -/

lemma vapor_pressure_pos (t : ℝ) : 0 < vapor_pressure_of_water t :=
  Real.rpow_pos_of_pos (by norm_num) _

lemma vapor_pressure_lt_100 (t : ℝ)
    (h : 8.10765 - 1750.286 / (235 + t) < 2) :
    vapor_pressure_of_water t < 100 := by
  unfold vapor_pressure_of_water
  calc (10 : ℝ) ^ (8.10765 - 1750.286 / (235 + t))
      < (10 : ℝ) ^ ((2 : ℕ) : ℝ) := by
        rw [Real.rpow_lt_rpow_left_iff (by norm_num : (1:ℝ) < 10)]
        push_cast
        linarith
    _ = 100 := by rw [Real.rpow_natCast]; norm_num

lemma exp_double_le {x u : ℝ} (h : Real.exp x ≤ u) :
    Real.exp (2 * x) ≤ u ^ 2 := by
  have h0 := (Real.exp_pos x).le
  calc Real.exp (2 * x) = Real.exp x * Real.exp x := by
        rw [← Real.exp_add]; ring_nf
    _ ≤ u * u := mul_le_mul h h h0 (h0.trans h)
    _ = u ^ 2 := (sq u).symm

/-- Rational bracket for `log 10`, obtained from Taylor bounds on `exp`
at the bracket ends (argument halved until it lies in `[0, 1]`). -/
lemma log_ten_bounds :
    (115129/50000 : ℝ) < Real.log 10 ∧ Real.log 10 < 230259/100000 := by
  constructor
  · rw [Real.lt_log_iff_exp_lt (by norm_num)]
    have h1 : Real.exp (115129/200000 : ℝ) ≤ 1.7782772 := by
      have hb := Real.exp_bound' (x := (115129/200000 : ℝ)) (by norm_num)
        (by norm_num) (n := 10) (by norm_num)
      refine hb.trans ?_
      simp only [Finset.sum_range_succ, Finset.sum_range_zero]
      norm_num [Nat.factorial]
    have h2 := exp_double_le (exp_double_le h1)
    have harg : (2 * (2 * (115129/200000 : ℝ))) = 115129/50000 := by norm_num
    rw [harg] at h2
    calc Real.exp (115129/50000 : ℝ) ≤ ((1.7782772:ℝ) ^ 2) ^ 2 := h2
      _ < 10 := by norm_num
  · rw [Real.log_lt_iff_lt_exp (by norm_num)]
    refine lt_of_lt_of_le ?_
      (Real.sum_le_exp_of_nonneg (x := (230259/100000 : ℝ)) (by norm_num) 16)
    simp only [Finset.sum_range_succ, Finset.sum_range_zero]
    norm_num [Nat.factorial]

/-! ## Agreement of the checked variants with the total model -/

lemma ok_bind {α β : Type} (a : α) (f : α → Except String β) :
    (Except.ok a : Except String α) >>= f = f a := rfl

lemma vapor_pressure_checked_eq (t : ℝ) (h : 235 + t ≠ 0) :
    vapor_pressure_of_water_checked t =
      Except.ok (vapor_pressure_of_water t) := by
  simp only [vapor_pressure_of_water_checked, pydiv, if_neg h, ok_bind,
    vapor_pressure_of_water]
  rfl

lemma pressure_correction_checked_eq (p t : ℝ) (h1 : 235 + t ≠ 0)
    (h2 : vapor_pressure_of_water t ≠ 760) :
    pressure_correction_checked p t =
      Except.ok (pressure_correction p t) := by
  have h760 : 760 - vapor_pressure_of_water t ≠ 0 := sub_ne_zero.mpr h2.symm
  simp only [pressure_correction_checked, vapor_pressure_checked_eq t h1,
    ok_bind, pydiv, if_neg h760, pressure_correction]

lemma do_at_saturation_checked_eq (t p : ℝ) (h1 : 235 + t ≠ 0)
    (h2 : deg2kelvin t ≠ 0) (h3 : vapor_pressure_of_water t ≠ 760) :
    do_at_saturation_checked t p = Except.ok (do_at_saturation t p) := by
  simp only [do_at_saturation_checked, pydiv, if_neg h2, ok_bind,
    pressure_correction_checked_eq p t h1 h3, do_at_saturation]
  rfl

lemma do_saturation_checked_eq (do_conc t p : ℝ) (h1 : 235 + t ≠ 0)
    (h2 : deg2kelvin t ≠ 0) (h3 : vapor_pressure_of_water t ≠ 760) :
    do_saturation_checked do_conc t p =
      Except.ok (do_saturation do_conc t p) := by
  simp only [do_saturation_checked, do_at_saturation_checked_eq t p h1 h2 h3,
    ok_bind, do_saturation]
  rfl

/-! ## Numeric brackets for the vapor pressure at the reference points -/

lemma vp0_bounds :
    (91/20 : ℝ) < vapor_pressure_of_water 0 ∧
      vapor_pressure_of_water 0 < 93/20 := by
  have he : (8.10765 - 1750.286 / (235 + (0:ℝ))) = 620047/940000 := by
    norm_num
  unfold vapor_pressure_of_water
  rw [he, Real.rpow_def_of_pos (by norm_num)]
  have hl10 := log_ten_bounds
  constructor
  · have harg : (71385391063/47000000000 : ℝ)
        ≤ Real.log 10 * (620047/940000) := by nlinarith [hl10.1]
    have hsum : (91/20 : ℝ) < Real.exp (71385391063/47000000000 : ℝ) := by
      refine lt_of_lt_of_le ?_
        (Real.sum_le_exp_of_nonneg (by norm_num) 14)
      simp only [Finset.sum_range_succ, Finset.sum_range_zero]
      norm_num [Nat.factorial]
    exact hsum.trans_le (Real.exp_le_exp.mpr harg)
  · have harg : Real.log 10 * (620047/940000)
        ≤ (142771402173/94000000000 : ℝ) := by nlinarith [hl10.2]
    have h1 : Real.exp (142771402173/188000000000 : ℝ) ≤ 2.137042 := by
      have hb := Real.exp_bound' (x := (142771402173/188000000000 : ℝ))
        (by norm_num) (by norm_num) (n := 10) (by norm_num)
      refine hb.trans ?_
      simp only [Finset.sum_range_succ, Finset.sum_range_zero]
      norm_num [Nat.factorial]
    have h2 := exp_double_le h1
    have hd : (2 * (142771402173/188000000000 : ℝ))
        = 142771402173/94000000000 := by norm_num
    rw [hd] at h2
    calc Real.exp (Real.log 10 * (620047/940000))
        ≤ Real.exp (142771402173/94000000000 : ℝ) :=
          Real.exp_le_exp.mpr harg
      _ ≤ (2.137042:ℝ) ^ 2 := h2
      _ < 93/20 := by norm_num

lemma vp5_bounds :
    (129/20 : ℝ) < vapor_pressure_of_water 5 ∧
      vapor_pressure_of_water 5 < 131/20 := by
  have he : (8.10765 - 1750.286 / (235 + (5:ℝ))) = 3911/4800 := by
    norm_num
  unfold vapor_pressure_of_water
  rw [he, Real.rpow_def_of_pos (by norm_num)]
  have hl10 := log_ten_bounds
  constructor
  · have harg : (450269519/240000000 : ℝ)
        ≤ Real.log 10 * (3911/4800) := by nlinarith [hl10.1]
    have hsum : (129/20 : ℝ) < Real.exp (450269519/240000000 : ℝ) := by
      refine lt_of_lt_of_le ?_
        (Real.sum_le_exp_of_nonneg (by norm_num) 14)
      simp only [Finset.sum_range_succ, Finset.sum_range_zero]
      norm_num [Nat.factorial]
    exact hsum.trans_le (Real.exp_le_exp.mpr harg)
  · have harg : Real.log 10 * (3911/4800)
        ≤ (300180983/160000000 : ℝ) := by nlinarith [hl10.2]
    have h1 : Real.exp (300180983/320000000 : ℝ) ≤ 2.555058 := by
      have hb := Real.exp_bound' (x := (300180983/320000000 : ℝ))
        (by norm_num) (by norm_num) (n := 10) (by norm_num)
      refine hb.trans ?_
      simp only [Finset.sum_range_succ, Finset.sum_range_zero]
      norm_num [Nat.factorial]
    have h2 := exp_double_le h1
    have hd : (2 * (300180983/320000000 : ℝ)) = 300180983/160000000 := by
      norm_num
    rw [hd] at h2
    calc Real.exp (Real.log 10 * (3911/4800))
        ≤ Real.exp (300180983/160000000 : ℝ) := Real.exp_le_exp.mpr harg
      _ ≤ (2.555058:ℝ) ^ 2 := h2
      _ < 131/20 := by norm_num

lemma vp50_bounds :
    (1849/20 : ℝ) < vapor_pressure_of_water 50 ∧
      vapor_pressure_of_water 50 < 1851/20 := by
  have he : (8.10765 - 1750.286 / (235 + (50:ℝ))) = 2241577/1140000 := by
    norm_num
  unfold vapor_pressure_of_water
  rw [he, Real.rpow_def_of_pos (by norm_num)]
  have hl10 := log_ten_bounds
  constructor
  · have harg : (258070518433/57000000000 : ℝ)
        ≤ Real.log 10 * (2241577/1140000) := by nlinarith [hl10.1]
    have hsum : (1849/20 : ℝ)
        < Real.exp (258070518433/57000000000 : ℝ) := by
      refine lt_of_lt_of_le ?_
        (Real.sum_le_exp_of_nonneg (by norm_num) 16)
      simp only [Finset.sum_range_succ, Finset.sum_range_zero]
      norm_num [Nat.factorial]
    exact hsum.trans_le (Real.exp_le_exp.mpr harg)
  · have harg : Real.log 10 * (2241577/1140000)
        ≤ (172047759481/38000000000 : ℝ) := by nlinarith [hl10.2]
    have h1 : Real.exp (172047759481/304000000000 : ℝ) ≤ 1.7611141 := by
      have hb := Real.exp_bound' (x := (172047759481/304000000000 : ℝ))
        (by norm_num) (by norm_num) (n := 10) (by norm_num)
      refine hb.trans ?_
      simp only [Finset.sum_range_succ, Finset.sum_range_zero]
      norm_num [Nat.factorial]
    have h2 : Real.exp (2 * (172047759481/304000000000 : ℝ))
        ≤ 3.1015229 := (exp_double_le h1).trans (by norm_num)
    have h4 : Real.exp (2 * (2 * (172047759481/304000000000 : ℝ)))
        ≤ 9.6194445 := (exp_double_le h2).trans (by norm_num)
    have h8 := exp_double_le h4
    have hd : (2 * (2 * (2 * (172047759481/304000000000 : ℝ))))
        = 172047759481/38000000000 := by norm_num
    rw [hd] at h8
    calc Real.exp (Real.log 10 * (2241577/1140000))
        ≤ Real.exp (172047759481/38000000000 : ℝ) :=
          Real.exp_le_exp.mpr harg
      _ ≤ (9.6194445:ℝ) ^ 2 := h8
      _ < 1851/20 := by norm_num

lemma vp20_lt_100 : vapor_pressure_of_water 20 < 100 :=
  vapor_pressure_lt_100 20 (by norm_num)

lemma vp22_lt_100 : vapor_pressure_of_water 22 < 100 :=
  vapor_pressure_lt_100 22 (by norm_num)

lemma vp20_ne_760 : vapor_pressure_of_water 20 ≠ 760 :=
  ne_of_lt (vp20_lt_100.trans (by norm_num))

lemma vp22_ne_760 : vapor_pressure_of_water 22 ≠ 760 :=
  ne_of_lt (vp22_lt_100.trans (by norm_num))

/-! ## Rounding to one decimal -/

lemma round1_eq_of_bounds (x : ℝ) (n : ℤ) (h1 : (n:ℝ) - 1/2 ≤ 10*x)
    (h2 : 10*x < (n:ℝ) + 1/2) : round1 x = (n:ℝ)/10 := by
  unfold round1
  have hr : round (10*x) = n := by
    rw [round_eq, Int.floor_eq_iff]
    exact ⟨by linarith, by linarith⟩
  rw [hr]

lemma round1_one : round1 (1 : ℝ) = 1 := by
  have := round1_eq_of_bounds 1 10 (by norm_num) (by norm_num)
  rw [this]; norm_num

/-! ## Bracketing the Weiss exponential at t = 20, p = 760

With `t_Kelvin = 293.15` the exponent is
`C + 143.3483 * log 2.9315` with rational
`C = -173.4292 + 249.6339 * (100/293.15) - 21.8493 * (293.15/100)`.
`log 2.9315` is bracketed through `exp`, and `exp` at the bracket ends is
bracketed by Taylor partial sums via `Real.sum_le_exp_of_nonneg` and
`Real.exp_bound'` (using `exp x = exp (x/2) * exp (x/2)` for upper
bounds, so the argument stays in `[0, 1]`). -/

lemma exp_half_sq (x : ℝ) : Real.exp x = Real.exp (x/2) * Real.exp (x/2) := by
  rw [← Real.exp_add]
  norm_num

lemma exp_a1_lt : Real.exp (107551/100000 : ℝ) < 2.9315 := by
  have h12 : Real.exp (107551/200000 : ℝ) ≤ 1.71216 := by
    have hb := Real.exp_bound' (x := (107551/200000 : ℝ)) (by norm_num)
      (by norm_num) (n := 10) (by norm_num)
    refine hb.trans ?_
    simp only [Finset.sum_range_succ, Finset.sum_range_zero]
    norm_num [Nat.factorial]
  have hsq := exp_half_sq (107551/100000 : ℝ)
  have h2 : (107551/100000 : ℝ) / 2 = 107551/200000 := by norm_num
  rw [h2] at hsq
  calc Real.exp (107551/100000 : ℝ)
      = Real.exp (107551/200000 : ℝ) * Real.exp (107551/200000 : ℝ) := hsq
    _ ≤ 1.71216 * 1.71216 :=
        mul_le_mul h12 h12 (Real.exp_pos _).le (by norm_num)
    _ < 2.9315 := by norm_num

lemma lt_exp_a2 : (2.9315 : ℝ) < Real.exp (3361/3125 : ℝ) := by
  have hs := Real.sum_le_exp_of_nonneg (x := (3361/3125 : ℝ)) (by norm_num) 10
  refine lt_of_lt_of_le ?_ hs
  simp only [Finset.sum_range_succ, Finset.sum_range_zero]
  norm_num [Nat.factorial]

lemma log_29315_bounds :
    (107551/100000 : ℝ) < Real.log 2.9315 ∧
      Real.log 2.9315 < 3361/3125 := by
  constructor
  · exact (Real.lt_log_iff_exp_lt (by norm_num)).mpr exp_a1_lt
  · exact (Real.log_lt_iff_lt_exp (by norm_num)).mpr lt_exp_a2

lemma exp_Elo_gt : (6.34 : ℝ) < Real.exp (10833624413929/5863000000000 : ℝ) := by
  have hs := Real.sum_le_exp_of_nonneg
    (x := (10833624413929/5863000000000 : ℝ)) (by norm_num) 13
  refine lt_of_lt_of_le ?_ hs
  simp only [Finset.sum_range_succ, Finset.sum_range_zero]
  norm_num [Nat.factorial]

lemma exp_Ehi_lt : Real.exp (5421014462379/2931500000000 : ℝ) < 6.40 := by
  have h12 : Real.exp (5421014462379/5863000000000 : ℝ) ≤ 2.5215 := by
    have hb := Real.exp_bound' (x := (5421014462379/5863000000000 : ℝ))
      (by norm_num) (by norm_num) (n := 10) (by norm_num)
    refine hb.trans ?_
    simp only [Finset.sum_range_succ, Finset.sum_range_zero]
    norm_num [Nat.factorial]
  have hsq := exp_half_sq (5421014462379/2931500000000 : ℝ)
  have h2 : (5421014462379/2931500000000 : ℝ) / 2
      = 5421014462379/5863000000000 := by norm_num
  rw [h2] at hsq
  calc Real.exp (5421014462379/2931500000000 : ℝ)
      = Real.exp (5421014462379/5863000000000 : ℝ)
        * Real.exp (5421014462379/5863000000000 : ℝ) := hsq
    _ ≤ 2.5215 * 2.5215 :=
        mul_le_mul h12 h12 (Real.exp_pos _).le (by norm_num)
    _ < 6.40 := by norm_num

lemma pc760_eq_one (t : ℝ) (h : vapor_pressure_of_water t ≠ 760) :
    pressure_correction 760 t = 1 := by
  unfold pressure_correction
  exact div_self (sub_ne_zero.mpr h.symm)

lemma dosat20_bounds :
    (9.05 : ℝ) ≤ do_at_saturation 20 760 ∧ do_at_saturation 20 760 < 9.15 := by
  have hL := log_29315_bounds
  simp only [do_at_saturation]
  have hk : deg2kelvin 20 = 293.15 := by
    unfold deg2kelvin ABSOLUTE_ZERO; norm_num
  rw [hk, pc760_eq_one 20 vp20_ne_760, mul_one]
  have harg : (293.15/100 : ℝ) = 2.9315 := by norm_num
  rw [harg]
  set L := Real.log 2.9315 with hLdef
  have hlo : (10833624413929/5863000000000 : ℝ)
      ≤ -173.4292 + 249.6339 * (100/293.15) + 143.3483 * L
        - 21.8493 * 2.9315 := by
    have := hL.1
    nlinarith [hL.1]
  have hhi : -173.4292 + 249.6339 * (100/293.15) + 143.3483 * L
      - 21.8493 * 2.9315 ≤ (5421014462379/2931500000000 : ℝ) := by
    nlinarith [hL.2]
  have h1 : (6.34 : ℝ) < Real.exp (-173.4292 + 249.6339 * (100/293.15)
      + 143.3483 * L - 21.8493 * 2.9315) :=
    exp_Elo_gt.trans_le (Real.exp_le_exp.mpr hlo)
  have h2 : Real.exp (-173.4292 + 249.6339 * (100/293.15)
      + 143.3483 * L - 21.8493 * 2.9315) < 6.40 :=
    (Real.exp_le_exp.mpr hhi).trans_lt exp_Ehi_lt
  constructor
  · nlinarith [h1]
  · nlinarith [h2]

/-! ## C1: the percent-saturation ratio is definitional -/

/-- C1: for all `do`, `t`, `p`, `do_saturation do t p` equals
`(do / do_at_saturation t p) * 100` — the definitional identity from the
spec holds unconditionally in the real-number model. -/
theorem do_saturation_eq_ratio (do_conc t p : ℝ) :
    do_saturation do_conc t p = (do_conc / do_at_saturation t p) * 100 := rfl

/-! ## C4: Celsius/Kelvin round trip -/

/-- C4: the Celsius-Kelvin conversions are exact inverses:
`kelvin2deg (deg2kelvin t) = t` for every real temperature `t`. -/
theorem kelvin_roundtrip (t : ℝ) : kelvin2deg (deg2kelvin t) = t := by
  unfold kelvin2deg deg2kelvin; ring

/-- Witness for C4 at `t = 25`. -/
theorem kelvin_roundtrip_witness : kelvin2deg (deg2kelvin 25) = 25 :=
  kelvin_roundtrip 25

/-! ## C2: the reference values round to the documented constants -/

/-- C2: at one decimal place, `vapor_pressure_of_water` evaluates to
`4.6`, `6.5`, `92.5` at `t = 0, 5, 50`, and `do_at_saturation 20 760`
evaluates to `9.1`, matching the reference points used by the script's
self-tests. -/
theorem reference_values_round :
    round1 (vapor_pressure_of_water 0) = 4.6 ∧
    round1 (vapor_pressure_of_water 5) = 6.5 ∧
    round1 (vapor_pressure_of_water 50) = 92.5 ∧
    round1 (do_at_saturation 20 760) = 9.1 := by
  refine ⟨?_, ?_, ?_, ?_⟩
  · have h := vp0_bounds
    have := round1_eq_of_bounds (vapor_pressure_of_water 0) 46
      (by push_cast; linarith [h.1]) (by push_cast; linarith [h.2])
    rw [this]; norm_num
  · have h := vp5_bounds
    have := round1_eq_of_bounds (vapor_pressure_of_water 5) 65
      (by push_cast; linarith [h.1]) (by push_cast; linarith [h.2])
    rw [this]; norm_num
  · have h := vp50_bounds
    have := round1_eq_of_bounds (vapor_pressure_of_water 50) 925
      (by push_cast; linarith [h.1]) (by push_cast; linarith [h.2])
    rw [this]; norm_num
  · have h := dosat20_bounds
    have := round1_eq_of_bounds (do_at_saturation 20 760) 91
      (by push_cast; linarith [h.1]) (by push_cast; linarith [h.2])
    rw [this]; norm_num

/-! ## C5: vapor pressure at t = -235 raises a division-by-zero error -/

lemma error_bind {α β : Type} (e : String) (f : α → Except String β) :
    (Except.error e : Except String α) >>= f = Except.error e := rfl

/-- C5: at `t = -235` the denominator `235 + t` is zero, so the scalar
Python evaluation of `vapor_pressure_of_water` raises `ZeroDivisionError`
instead of silently producing infinity. -/
theorem vapor_pressure_zero_div_at_neg235 :
    vapor_pressure_of_water_checked (-235) =
      Except.error "ZeroDivisionError" := by
  have h : (235 : ℝ) + (-235) = 0 := by norm_num
  simp only [vapor_pressure_of_water_checked, pydiv, if_pos h, error_bind]

/-! ## C3: the pressure correction at 760 mmHg -/

/-- C3: whenever the denominator `760 - vapor_pressure_of_water t` is
nonzero, `pressure_correction 760 t` is exactly `1`; in particular its
value at `t = 22` rounds to `1.0`. -/
theorem pressure_correction_one_at_standard :
    (∀ t : ℝ, vapor_pressure_of_water t ≠ 760 →
        pressure_correction 760 t = 1) ∧
      round1 (pressure_correction 760 22) = 1 := by
  have key : ∀ t : ℝ, vapor_pressure_of_water t ≠ 760 →
      pressure_correction 760 t = 1 := by
    intro t ht
    unfold pressure_correction
    exact div_self (sub_ne_zero.mpr ht.symm)
  refine ⟨key, ?_⟩
  rw [key 22 vp22_ne_760, round1_one]

/-- Witness for C3: the universally quantified part applied at `t = 22`. -/
theorem pressure_correction_one_at_standard_witness :
    pressure_correction 760 22 = 1 :=
  pressure_correction_one_at_standard.1 22 vp22_ne_760

/-! ## C6: behaviour at and below absolute zero

The source has no explicit guard.  At `t = -273.15` exactly, the Kelvin
temperature is `0` and the scalar division `100 / t_Kelvin` raises
`ZeroDivisionError`.  For `t < -273.15` nothing raises: `np.log` of a
negative scalar returns NaN with a warning, so the call silently
returns a (NaN) value instead of failing. -/

lemma vp_gt_1000 (t : ℝ) (h : 3 < 8.10765 - 1750.286 / (235 + t)) :
    1000 < vapor_pressure_of_water t := by
  unfold vapor_pressure_of_water
  calc (1000 : ℝ) = (10 : ℝ) ^ ((3 : ℕ) : ℝ) := by
        rw [Real.rpow_natCast]; norm_num
    _ < (10 : ℝ) ^ (8.10765 - 1750.286 / (235 + t)) := by
        rw [Real.rpow_lt_rpow_left_iff (by norm_num : (1:ℝ) < 10)]
        push_cast
        linarith

lemma vp_neg274_ne_760 : vapor_pressure_of_water (-274) ≠ 760 := by
  have : (1000 : ℝ) < vapor_pressure_of_water (-274) :=
    vp_gt_1000 (-274) (by norm_num)
  linarith

/-- C6 amended: at `t = -273.15` exactly (`t_Kelvin = 0`), the checked
evaluation of `do_at_saturation` raises `ZeroDivisionError` for every
pressure. -/
theorem do_at_saturation_zero_div_at_abs_zero (p : ℝ) :
    do_at_saturation_checked (-273.15) p =
      Except.error "ZeroDivisionError" := by
  have h : deg2kelvin (-273.15) = (0:ℝ) := by
    unfold deg2kelvin ABSOLUTE_ZERO; norm_num
  simp only [do_at_saturation_checked, h]
  rw [show pydiv (100:ℝ) 0 = Except.error "ZeroDivisionError" by
    unfold pydiv; rw [if_pos rfl]]
  rfl

/-- C6 counterexample: at `t = -274 < -273.15` the code does not fail:
the checked evaluation returns an ordinary `Except.ok` value (the real
code silently yields NaN there), refuting the claim that every
temperature `≤ -273.15` is rejected with an error. -/
theorem do_at_saturation_no_error_below_abs_zero :
    (-274 : ℝ) < -273.15 ∧
      do_at_saturation_checked (-274) 760 =
        Except.ok (do_at_saturation (-274) 760) := by
  refine ⟨by norm_num, ?_⟩
  apply do_at_saturation_checked_eq
  · norm_num
  · unfold deg2kelvin ABSOLUTE_ZERO; norm_num
  · exact vp_neg274_ne_760

/-! ## C7: what do_saturation does on nonpositive saturation values

The source divides unconditionally, and the division is NumPy float64
division (`do_max` comes out of `np.exp`): it never raises, for any
value of the saturation concentration.  A negative concentration gives
a negative percentage; an exactly-zero one gives inf/NaN with a
RuntimeWarning. -/

lemma dosat_neg_at_20_0 : do_at_saturation 20 0 < 0 := by
  simp only [do_at_saturation]
  have hv0 : 0 < vapor_pressure_of_water 20 := vapor_pressure_pos 20
  have hv100 : vapor_pressure_of_water 20 < 100 := vp20_lt_100
  have hpc : pressure_correction 0 20 < 0 := by
    unfold pressure_correction
    apply div_neg_of_neg_of_pos <;> linarith
  exact mul_neg_of_pos_of_neg
    (by positivity : (0:ℝ) < 1.42905 * Real.exp _) hpc

lemma deg2kelvin_20_ne : deg2kelvin (20:ℝ) ≠ 0 := by
  unfold deg2kelvin ABSOLUTE_ZERO; norm_num

/-- C7 counterexample: at `t = 20`, `p = 0` the saturation concentration
is strictly negative, yet `do_saturation` performs the division and
returns an ordinary value instead of failing. -/
theorem do_saturation_ok_on_negative_saturation :
    do_at_saturation 20 0 < 0 ∧
      do_saturation_checked 9 20 0 = Except.ok (do_saturation 9 20 0) := by
  refine ⟨dosat_neg_at_20_0, ?_⟩
  exact do_saturation_checked_eq 9 20 0 (by norm_num) deg2kelvin_20_ne
    vp20_ne_760

/-- C7 amended: whenever the upstream pure-Python denominators are fine,
`do_saturation` returns the ratio without any error, whatever the sign
of the saturation concentration — the final division is NumPy float64
division, which never raises (at an exactly-zero concentration the real
code warns and yields inf/NaN rather than failing). -/
theorem do_saturation_checked_never_raises (dc t p : ℝ)
    (h1 : 235 + t ≠ 0) (h2 : deg2kelvin t ≠ 0)
    (h3 : vapor_pressure_of_water t ≠ 760) :
    do_saturation_checked dc t p =
      Except.ok ((dc / do_at_saturation t p) * 100) := by
  rw [do_saturation_checked_eq dc t p h1 h2 h3]
  rfl

/-- Witness for the amended C7 at `dc = 9`, `t = 20`, `p = 0`, where the
saturation concentration is negative. -/
theorem do_saturation_checked_never_raises_witness :
    do_saturation_checked 9 20 0 =
      Except.ok ((9 / do_at_saturation 20 0) * 100) :=
  do_saturation_checked_never_raises 9 20 0 (by norm_num)
    deg2kelvin_20_ne vp20_ne_760

/-! ## C8: the self-test harness error message

On mismatch the source raises
`ValueError('function', func.__name__, 'failed test')`: it names the
failing function but carries no expected or actual values — the payload
is the same constant tuple whatever the expected list was. -/

lemma map_round_deg2kelvin :
    List.map (fun v => round1 (deg2kelvin v)) [(0.05 : ℝ)]
      = [(273.2 : ℝ)] := by
  have hk : deg2kelvin (0.05 : ℝ) = 273.2 := by
    unfold deg2kelvin ABSOLUTE_ZERO; norm_num
  have hr : round1 (273.2 : ℝ) = 273.2 := by
    have := round1_eq_of_bounds 273.2 2732 (by norm_num) (by norm_num)
    rw [this]; norm_num
  simp [hk, hr]

/-- C8 counterexample: two runs of the harness with different expected
values (both wrong) raise the very same error
`('function', 'deg2kelvin', 'failed test')`: the message names the
function but cannot be showing expected versus actual values, since it
does not depend on them. -/
theorem unit_test_message_independent_of_expected :
    unit_test deg2kelvin "deg2kelvin" [0.05] [0]
        = Except.error ("function", "deg2kelvin", "failed test") ∧
      unit_test deg2kelvin "deg2kelvin" [0.05] [1]
        = Except.error ("function", "deg2kelvin", "failed test") := by
  constructor <;>
  · simp only [unit_test, map_round_deg2kelvin]
    rw [if_neg (by simp; norm_num)]

/-- C8 amended: whenever a rounded output deviates from its expected
value, the harness fails with a `ValueError` naming the failing
function — but the payload is the constant
`('function', name, 'failed test')`, without expected/actual values. -/
theorem unit_test_error_names_function (func : ℝ → ℝ) (fname : String)
    (ins outs : List ℝ)
    (h : outs ≠ ins.map (fun v => round1 (func v))) :
    unit_test func fname ins outs =
      Except.error ("function", fname, "failed test") := by
  simp only [unit_test]
  rw [if_neg h]

/-- Witness for the amended C8: `deg2kelvin` tested against the wrong
expectation `[0]` on input `[0.05]`. -/
theorem unit_test_error_names_function_witness :
    unit_test deg2kelvin "deg2kelvin" [0.05] [0]
      = Except.error ("function", "deg2kelvin", "failed test") :=
  unit_test_error_names_function deg2kelvin "deg2kelvin" [0.05] [0]
    (by rw [map_round_deg2kelvin]; simp; norm_num)

/-! ## Positivity of the saturation concentration in the valid domain -/

lemma do_at_saturation_pos (t p : ℝ)
    (h1 : vapor_pressure_of_water t < p)
    (h2 : vapor_pressure_of_water t < 760) :
    0 < do_at_saturation t p := by
  simp only [do_at_saturation]
  have hpc : 0 < pressure_correction p t := by
    unfold pressure_correction
    exact div_pos (by linarith) (by linarith)
  have hexp : 0 < Real.exp (-173.4292 + 249.6339 * (100 / deg2kelvin t)
      + 143.3483 * Real.log (deg2kelvin t / 100)
      - 21.8493 * (deg2kelvin t / 100)) := Real.exp_pos _
  positivity

lemma vapor_pressure_lt_100_of_le_40 (t : ℝ) (h0 : 0 ≤ t) (h1 : t ≤ 40) :
    vapor_pressure_of_water t < 100 := by
  apply vapor_pressure_lt_100
  have hd : (1750.286 : ℝ) / 275 ≤ 1750.286 / (235 + t) := by
    apply div_le_div_of_nonneg_left (by norm_num) (by linarith) (by linarith)
  nlinarith

/-! ## C9: strict monotonicity in the measured DO concentration -/

/-- C9: for any fixed temperature and pressure in the valid domain
(`0 ≤ t ≤ 40` and `500 ≤ p ≤ 800`, the physical ranges of the spec's
data model), `do_saturation` is strictly increasing in the measured DO
concentration. -/
theorem do_saturation_strict_mono (d1 d2 t p : ℝ)
    (ht0 : 0 ≤ t) (ht1 : t ≤ 40) (hp0 : 500 ≤ p) (hp1 : p ≤ 800)
    (h : d1 < d2) :
    do_saturation d1 t p < do_saturation d2 t p := by
  have hv : vapor_pressure_of_water t < 100 :=
    vapor_pressure_lt_100_of_le_40 t ht0 ht1
  have hm : 0 < do_at_saturation t p :=
    do_at_saturation_pos t p (by linarith) (by linarith)
  simp only [do_saturation]
  have := div_lt_div_of_pos_right h hm
  nlinarith

/-- Witness for C9 at `d1 = 5`, `d2 = 6`, `t = 20`, `p = 760`. -/
theorem do_saturation_strict_mono_witness :
    do_saturation 5 20 760 < do_saturation 6 20 760 :=
  do_saturation_strict_mono 5 6 20 760 (by norm_num) (by norm_num)
    (by norm_num) (by norm_num) (by norm_num)

/-! ## C10: feeding the saturation concentration back yields 100 % -/

/-- C10: whenever `do_at_saturation t p` is nonzero,
`do_saturation (do_at_saturation t p) t p = 100`. -/
theorem do_saturation_at_saturation_eq_100 (t p : ℝ)
    (h : do_at_saturation t p ≠ 0) :
    do_saturation (do_at_saturation t p) t p = 100 := by
  simp only [do_saturation]
  rw [div_self h]
  norm_num

/-- Witness for C10 at `t = 20`, `p = 760`. -/
theorem do_saturation_at_saturation_eq_100_witness :
    do_saturation (do_at_saturation 20 760) 20 760 = 100 :=
  do_saturation_at_saturation_eq_100 20 760
    (ne_of_gt (do_at_saturation_pos 20 760
      (vp20_lt_100.trans (by norm_num)) (vp20_lt_100.trans (by norm_num))))

end DOSat
